import Mathlib

/-!
Verification development for the kubedirect-ae serving/autoscaling core.

Shallow embedding conventions:
* Go `float64` values are modelled as rationals (`ℚ`).
* Go `time.Time` is a rational number of seconds; the Go zero time used as an
  "unset" sentinel (`IsZero`) is modelled as `Option.none`.
* Mutating methods become pure functions returning the updated state (and the
  Go return value, when there is one).
-/

namespace Kubedirect

/-! ### RequestStats (src/unnamed/part_002, package metric) -/

/-- Model of the `metric.RequestStats` struct: instantaneous concurrency, the
time-integral of concurrency, lifetime request count, the last-change
timestamp (`none` models the Go zero time) and the seconds accumulated since
the last reset. -/
structure RequestStats where
  concurrency : ℚ
  concurrencyIntegral : ℚ
  requestCount : ℚ
  lastChange : Option ℚ
  secondsInUse : ℚ
deriving Repr, DecidableEq

/-- Model of `NewRequestStats`: all numeric fields zero, `lastChange` unset. -/
def newRequestStats : RequestStats :=
  { concurrency := 0, concurrencyIntegral := 0, requestCount := 0,
    lastChange := none, secondsInUse := 0 }

/-- Model of `RequestStats.Move`: if `lastChange` is unset, set it to `now`;
otherwise, when `now - lastChange > 0`, accumulate the elapsed seconds into
`secondsInUse` and `concurrency × elapsed` into `concurrencyIntegral` and
advance `lastChange`; when time has not advanced, change nothing. -/
def RequestStats.move (s : RequestStats) (now : ℚ) : RequestStats :=
  match s.lastChange with
  | none => { s with lastChange := some now }
  | some t =>
      if 0 < now - t then
        { s with
          secondsInUse := s.secondsInUse + (now - t),
          concurrencyIntegral := s.concurrencyIntegral + s.concurrency * (now - t),
          lastChange := some now }
      else s

/-- Model of `RequestStats.ReqIn`: advance the integral, then increment
concurrency and the request count; returns the new concurrency. -/
def RequestStats.reqIn (s : RequestStats) (now : ℚ) : RequestStats × ℚ :=
  let s1 := s.move now
  let s2 := { s1 with concurrency := s1.concurrency + 1,
                      requestCount := s1.requestCount + 1 }
  (s2, s2.concurrency)

/-- Model of `RequestStats.ReqOut`: advance the integral, then decrement
concurrency; returns the new concurrency. The Go code performs no check
before decrementing. -/
def RequestStats.reqOut (s : RequestStats) (now : ℚ) : RequestStats × ℚ :=
  let s1 := s.move now
  let s2 := { s1 with concurrency := s1.concurrency - 1 }
  (s2, s2.concurrency)

/-- Model of the `metric.RequestStatsReport` struct. -/
structure RequestStatsReport where
  averageConcurrency : ℚ
  requestCount : ℚ
deriving Repr, DecidableEq

/-- Model of `RequestStats.reset`: zero the integral, the request count and
the elapsed seconds (the last-change timestamp is kept). -/
def RequestStats.reset (s : RequestStats) : RequestStats :=
  { s with concurrencyIntegral := 0, requestCount := 0, secondsInUse := 0 }

/-- Model of `RequestStats.Report`: advance the integral to `now`, produce the
report (average concurrency is `integral / secondsInUse` when some time has
elapsed, `0` otherwise), then reset the accumulators. -/
def RequestStats.report (s : RequestStats) (now : ℚ) : RequestStats × RequestStatsReport :=
  let s1 := s.move now
  let rep : RequestStatsReport :=
    { averageConcurrency :=
        if 0 < s1.secondsInUse then s1.concurrencyIntegral / s1.secondsInUse else 0,
      requestCount := s1.requestCount }
  (s1.reset, rep)

/-- A call sequence against one `RequestStats`, each call tagged with its
wall-clock instant. -/
inductive StatsOp where
  | reqIn (now : ℚ)
  | reqOut (now : ℚ)
deriving Repr, DecidableEq

/-- Apply one `ReqIn`/`ReqOut` call, keeping only the state. -/
def RequestStats.applyOp (s : RequestStats) (op : StatsOp) : RequestStats :=
  match op with
  | .reqIn now => (s.reqIn now).1
  | .reqOut now => (s.reqOut now).1

/-- Apply a whole call sequence in order. -/
def RequestStats.applyOps (s : RequestStats) (ops : List StatsOp) : RequestStats :=
  ops.foldl RequestStats.applyOp s

/-- Number of `ReqIn` calls in a sequence. -/
def countIn (ops : List StatsOp) : ℕ :=
  (ops.filter fun op => match op with | .reqIn _ => true | .reqOut _ => false).length

/-- Number of `ReqOut` calls in a sequence. -/
def countOut (ops : List StatsOp) : ℕ :=
  (ops.filter fun op => match op with | .reqIn _ => false | .reqOut _ => true).length

/-! Supporting lemmas about `RequestStats`. -/

theorem move_concurrency (s : RequestStats) (now : ℚ) :
    (s.move now).concurrency = s.concurrency := by
  rcases h : s.lastChange with _ | t <;>
    simp only [RequestStats.move, h] <;> try rfl
  split <;> rfl

theorem move_requestCount (s : RequestStats) (now : ℚ) :
    (s.move now).requestCount = s.requestCount := by
  rcases h : s.lastChange with _ | t <;>
    simp only [RequestStats.move, h] <;> try rfl
  split <;> rfl

theorem applyOp_concurrency (s : RequestStats) (op : StatsOp) :
    (s.applyOp op).concurrency =
      s.concurrency + (match op with | .reqIn _ => 1 | .reqOut _ => -1) := by
  rcases op with now | now <;>
    simp [RequestStats.applyOp, RequestStats.reqIn, RequestStats.reqOut,
      move_concurrency] <;> ring

theorem applyOps_concurrency (s : RequestStats) (ops : List StatsOp) :
    (s.applyOps ops).concurrency =
      s.concurrency + (countIn ops : ℚ) - (countOut ops : ℚ) := by
  induction ops generalizing s with
  | nil => simp [RequestStats.applyOps, countIn, countOut]
  | cons op rest ih =>
      simp only [RequestStats.applyOps, List.foldl_cons] at ih ⊢
      rw [ih (s.applyOp op)]
      rcases op with now | now <;>
        simp [applyOp_concurrency, countIn, countOut, List.filter_cons] <;>
        push_cast <;> ring

/-- The last-change timestamp after a `Move` is set and at least `now`. -/
theorem move_lastChange_ge (s : RequestStats) (now : ℚ) :
    ∃ u, (s.move now).lastChange = some u ∧ now ≤ u := by
  rcases hl : s.lastChange with _ | t
  · exact ⟨now, by simp [RequestStats.move, hl], le_refl now⟩
  · by_cases h : 0 < now - t
    · exact ⟨now, by simp [RequestStats.move, hl, h], le_refl now⟩
    · exact ⟨t, by simp [RequestStats.move, hl, h, hl], by linarith⟩

/-- Move does nothing when the clock has not advanced past `lastChange`. -/
theorem move_of_le (s : RequestStats) (now t : ℚ) (h : s.lastChange = some t)
    (hle : now ≤ t) : s.move now = s := by
  have hlt : ¬ 0 < now - t := by linarith
  simp [RequestStats.move, h, hlt]

/-- Move on an unset `lastChange` only records the timestamp. -/
theorem move_of_none (s : RequestStats) (now : ℚ) (h : s.lastChange = none) :
    s.move now = { s with lastChange := some now } := by
  simp [RequestStats.move, h]

/-- C10: `RequestStats.Move(now)` is a no-op on all fields when `lastChange`
is set and `now ≤ lastChange` (out-of-order or duplicate timestamps never
change the accumulators), and when `lastChange` is unset it only sets
`lastChange := now`. -/
theorem move_frame (s : RequestStats) (now : ℚ) :
    (∀ t, s.lastChange = some t → now ≤ t → s.move now = s) ∧
    (s.lastChange = none → s.move now = { s with lastChange := some now }) :=
  ⟨fun t h hle => move_of_le s now t h hle, fun h => move_of_none s now h⟩

/-- Concrete example state used in witnesses for `RequestStats` claims. -/
def statsExampleA : RequestStats :=
  { concurrency := 2, concurrencyIntegral := 3, requestCount := 4,
    lastChange := some 5, secondsInUse := 6 }

/-- Witness for C10 at concrete inputs: a Move at a timestamp equal to
`lastChange` changes nothing, and a Move on a fresh stats object only sets
`lastChange`. -/
theorem move_frame_witness :
    statsExampleA.move 5 = statsExampleA ∧
      newRequestStats.move 7 = { newRequestStats with lastChange := some 7 } :=
  ⟨(move_frame statsExampleA 5).1 5 rfl (le_refl 5),
   (move_frame newRequestStats 7).2 rfl⟩

/-- C4 counterexample: a `ReqOut` on a fresh `RequestStats` (no prior
`ReqIn`) does not fail; it returns concurrency `-1` and leaves the counter
negative, contradicting the claimed `concurrency ≥ 0` / fail-loudly
behaviour. -/
theorem reqOut_goes_negative :
    (newRequestStats.reqOut 0).2 = -1 ∧
      (newRequestStats.reqOut 0).1.concurrency = -1 := by
  constructor <;>
    norm_num [RequestStats.reqOut, RequestStats.move, newRequestStats]

/-- C4 (amended): `ReqOut` decrements unconditionally and never fails, so
after any call sequence the concurrency equals `#ReqIn − #ReqOut`; in
particular it is nonnegative precisely when `ReqOut` calls do not outnumber
`ReqIn` calls. -/
theorem concurrency_conservation (ops : List StatsOp) :
    (newRequestStats.applyOps ops).concurrency
        = (countIn ops : ℚ) - (countOut ops : ℚ) ∧
      (countOut ops ≤ countIn ops → 0 ≤ (newRequestStats.applyOps ops).concurrency) := by
  have h := applyOps_concurrency newRequestStats ops
  have h0 : newRequestStats.concurrency = 0 := rfl
  rw [h0] at h
  refine ⟨by linarith, fun hle => ?_⟩
  have : (countOut ops : ℚ) ≤ (countIn ops : ℚ) := by exact_mod_cast hle
  linarith

/-- Witness for C4 (amended) at a concrete call sequence. -/
theorem concurrency_conservation_witness :
    (newRequestStats.applyOps [StatsOp.reqIn 0, StatsOp.reqOut 1]).concurrency
        = (countIn [StatsOp.reqIn 0, StatsOp.reqOut 1] : ℚ)
          - (countOut [StatsOp.reqIn 0, StatsOp.reqOut 1] : ℚ) ∧
      0 ≤ (newRequestStats.applyOps [StatsOp.reqIn 0, StatsOp.reqOut 1]).concurrency :=
  ⟨(concurrency_conservation [StatsOp.reqIn 0, StatsOp.reqOut 1]).1,
   (concurrency_conservation [StatsOp.reqIn 0, StatsOp.reqOut 1]).2 (by decide)⟩

/-- C5: `Report(now)` advances the integral, reports
`averageConcurrency = integral / secondsInUse` (and `0` when no time has
elapsed) together with the request count, then resets the integral, the
request count and the elapsed seconds; hence a second `Report` at the same
instant reports average `0` and count `0`. -/
theorem report_spec (s : RequestStats) (now : ℚ) :
    ((s.report now).1.concurrencyIntegral = 0 ∧
      (s.report now).1.requestCount = 0 ∧
      (s.report now).1.secondsInUse = 0) ∧
    (s.report now).2.requestCount = (s.move now).requestCount ∧
    (0 < (s.move now).secondsInUse →
      (s.report now).2.averageConcurrency
        = (s.move now).concurrencyIntegral / (s.move now).secondsInUse) ∧
    ((s.move now).secondsInUse = 0 → (s.report now).2.averageConcurrency = 0) ∧
    ((s.report now).1.report now).2 = ⟨0, 0⟩ := by
  refine ⟨⟨rfl, rfl, rfl⟩, rfl, fun h => ?_, fun h => ?_, ?_⟩
  · simp [RequestStats.report, h]
  · simp [RequestStats.report, h]
  · obtain ⟨u, hu, hle⟩ := move_lastChange_ge s now
    have h1 : (s.report now).1 = (s.move now).reset := rfl
    rw [h1]
    have hlc : ((s.move now).reset).lastChange = some u := hu
    have hm : ((s.move now).reset).move now = (s.move now).reset :=
      move_of_le _ now u hlc hle
    have hs : ((s.move now).reset).secondsInUse = 0 := rfl
    have hr : ((s.move now).reset).requestCount = 0 := rfl
    simp [RequestStats.report, hm, hs, hr]

/-- Concrete example state used in the C5 witness. -/
def statsExampleB : RequestStats :=
  { concurrency := 2, concurrencyIntegral := 6, requestCount := 3,
    lastChange := some 0, secondsInUse := 0 }

/-- Witness for C5 at concrete inputs: the elapsed-time hypothesis is
discharged at `now = 3`. -/
theorem report_spec_witness :
    (statsExampleB.report 3).2.averageConcurrency
        = (statsExampleB.move 3).concurrencyIntegral
          / (statsExampleB.move 3).secondsInUse ∧
      ((statsExampleB.report 3).1.report 3).2 = ⟨0, 0⟩ :=
  ⟨(report_spec statsExampleB 3).2.2.1
      (by norm_num [RequestStats.move, statsExampleB]),
   (report_spec statsExampleB 3).2.2.2.2⟩

/-! ### KPADecider (src/pkg/autoscaler/kpa.go, package decider) -/

/-- Modelled from the spec: the scale-down delay window (`knas.TimeWindow`
from `knative.dev/serving/pkg/autoscaler/aggregation/max`, a dependency whose
source is not part of this repository). Per §4.5 of the spec, `Record(time,
value)` writes into the ring slot `⌊time/granularity⌋ mod N` keeping the
maximum so far for that slot's epoch, and `Current()` returns the maximum over
all currently-valid slots. Entries are kept as an association list from epoch
`⌊time/granularity⌋` to the per-epoch maximum; a ring slot is only ever
reused by an epoch at least `N` newer — by which time the old entry is outside
the window — so the association-list and ring presentations agree, with a slot
valid exactly when its epoch lies within the last `N` epochs of the most
recent record. -/
structure TimeWindow where
  nSlots : ℤ
  granularity : ℚ
  entries : List (ℤ × ℤ)
deriving Repr, DecidableEq

/-- Record `v` at `time` into the delay window, keeping per-epoch maxima. -/
def TimeWindow.record (w : TimeWindow) (time : ℚ) (v : ℤ) : TimeWindow :=
  let e : ℤ := ⌊time / w.granularity⌋
  if w.entries.any fun q => q.1 == e then
    { w with entries := w.entries.map fun q => if q.1 == e then (q.1, max q.2 v) else q }
  else
    { w with entries := (e, v) :: w.entries }

/-- Current reading of the delay window: the maximum over entries whose epoch
lies within the last `nSlots` epochs of the most recent record. -/
def TimeWindow.current (w : TimeWindow) : ℤ :=
  let latest : ℤ := w.entries.foldl (fun acc q => max acc q.1) 0
  (w.entries.filter fun q => decide (latest - w.nSlots < q.1)).foldl
    (fun acc q => max acc q.2) 0

/-- Model of the `decider.KPADecider` struct. Configuration fields are fixed
at construction; `panicTime` (`none` models the Go zero time), `maxPanicPods`
and `desiredScale` are the mutable decision state. The collector is not
embedded: the observed stable/panic/instant concurrency values it would
return are passed to `reconcile` as inputs. -/
structure KPAState where
  targetValue : ℚ
  maxScaleUpRate : ℚ
  maxScaleDownRate : ℚ
  stableWindow : ℚ
  panicWindow : ℚ
  panicThreshold : ℚ
  delayWindow : Option TimeWindow
  tickInterval : ℚ
  panicTime : Option ℚ
  maxPanicPods : ℤ
  desiredScale : ℤ
deriving Repr, DecidableEq

/-- Model of the upper/lower bound closure in `Reconcile`:
`up = ⌈maxScaleUpRate × effectiveReady⌉`, `low = ⌊effectiveReady /
maxScaleDownRate⌋`, both clamped to at least 1 when scaling from zero with
positive instant concurrency. Returns `(upperbound, lowerbound)`. -/
def KPAState.bounds (k : KPAState) (currentReady0 : ℕ) (observedInstant : ℚ) : ℤ × ℤ :=
  let currentReady : ℤ := max 1 (currentReady0 : ℤ)
  let up : ℤ := ⌈k.maxScaleUpRate * (currentReady : ℚ)⌉
  let low : ℤ := ⌊(currentReady : ℚ) / k.maxScaleDownRate⌋
  if currentReady0 = 0 ∧ 0 < observedInstant then (max up 1, max low 1) else (up, low)

/-- Model of the panic state transition in `Reconcile` (lines 181–194 of
kpa.go): over-threshold sets or refreshes `panicTime := now`; if set, not
over threshold, and `panicTime + stableWindow` is strictly before `now`,
panic is exited (`panicTime` unset, `maxPanicPods := 0`); otherwise
unchanged. Returns the new `(panicTime, maxPanicPods)`. -/
def KPAState.panicTransition (k : KPAState) (now : ℚ) (dppc currentReady : ℤ) :
    Option ℚ × ℤ :=
  if k.panicThreshold ≤ (dppc : ℚ) / (currentReady : ℚ) then
    (some now, k.maxPanicPods)
  else
    match k.panicTime with
    | none => (none, k.maxPanicPods)
    | some t =>
        if t + k.stableWindow < now then (none, 0)
        else (some t, k.maxPanicPods)

/-- Model of the combine step in `Reconcile` (lines 196–218): in panic mode
the candidate `max(desiredStable, desiredPanic)` only ever raises
`maxPanicPods`, and the result is `maxPanicPods` (no scale-down in panic);
in stable mode the result is `desiredStable`. Returns
`(desiredPodCount, maxPanicPods)`. -/
def KPAState.combine (panicTime : Option ℚ)
    (maxPanicPods0 desiredStable desiredPanic : ℤ) : ℤ × ℤ :=
  match panicTime with
  | some _ =>
      let cand := max desiredStable desiredPanic
      let mpp := if maxPanicPods0 < cand then cand else maxPanicPods0
      (mpp, mpp)
  | none => (desiredStable, maxPanicPods0)

/-- Model of `KPADecider.Reconcile`: compute bounds, clamp the raw stable and
panic desires, run the panic transition, combine, and apply the delay window
when present. Returns the updated decider state and the desired pod count. -/
def KPAState.reconcile (k : KPAState) (now : ℚ) (currentReady0 : ℕ)
    (observedStable observedPanic observedInstant : ℚ) : KPAState × ℤ :=
  let currentReady : ℤ := max 1 (currentReady0 : ℤ)
  let ub : ℤ := (k.bounds currentReady0 observedInstant).1
  let lb : ℤ := (k.bounds currentReady0 observedInstant).2
  let dspc : ℤ := ⌈observedStable / k.targetValue⌉
  let dppc : ℤ := ⌈observedPanic / k.targetValue⌉
  let desiredStablePodCount : ℤ := min (max dspc lb) ub
  let desiredPanicPodCount : ℤ := min (max dppc lb) ub
  let pt := k.panicTransition now dppc currentReady
  let comb := KPAState.combine pt.1 pt.2 desiredStablePodCount desiredPanicPodCount
  let delayWindow1 : Option TimeWindow :=
    match k.delayWindow with
    | none => none
    | some w => some (w.record now comb.1)
  let desiredPodCount : ℤ :=
    match delayWindow1 with
    | none => comb.1
    | some w1 => w1.current
  ({ k with panicTime := pt.1, maxPanicPods := comb.2,
            delayWindow := delayWindow1, desiredScale := desiredPodCount },
   desiredPodCount)

/-! Supporting lemmas about `reconcile`. In the following, `dspc k s` and
`dppc k p` abbreviate the raw stable/panic desires and `pt k now cr0 p` the
panic transition as they occur inside `reconcile`. -/

/-- Raw stable (or panic) desired pod count before clamping. -/
def rawDesire (k : KPAState) (v : ℚ) : ℤ := ⌈v / k.targetValue⌉

/-- The panic transition as invoked inside `reconcile`. -/
def pt (k : KPAState) (now : ℚ) (cr0 : ℕ) (p : ℚ) : Option ℚ × ℤ :=
  k.panicTransition now (rawDesire k p) (max 1 (cr0 : ℤ))

/-- The clamped desired pod count for observed value `v`. -/
def clamped (k : KPAState) (cr0 : ℕ) (i v : ℚ) : ℤ :=
  min (max (rawDesire k v) (k.bounds cr0 i).2) (k.bounds cr0 i).1

theorem reconcile_panicTime_proj (k : KPAState) (now : ℚ) (cr0 : ℕ) (s p i : ℚ) :
    ((k.reconcile now cr0 s p i).1).panicTime = (pt k now cr0 p).1 := rfl

theorem reconcile_maxPanicPods_proj (k : KPAState) (now : ℚ) (cr0 : ℕ) (s p i : ℚ) :
    ((k.reconcile now cr0 s p i).1).maxPanicPods
      = (KPAState.combine (pt k now cr0 p).1 (pt k now cr0 p).2
          (clamped k cr0 i s) (clamped k cr0 i p)).2 := rfl

theorem reconcile_result_of_no_delay (k : KPAState) (now : ℚ) (cr0 : ℕ) (s p i : ℚ)
    (hdw : k.delayWindow = none) :
    (k.reconcile now cr0 s p i).2
      = (KPAState.combine (pt k now cr0 p).1 (pt k now cr0 p).2
          (clamped k cr0 i s) (clamped k cr0 i p)).1 := by
  simp only [KPAState.reconcile, hdw]
  rfl

theorem reconcile_delayWindow_of_none (k : KPAState) (now : ℚ) (cr0 : ℕ) (s p i : ℚ)
    (hdw : k.delayWindow = none) :
    ((k.reconcile now cr0 s p i).1).delayWindow = none := by
  simp only [KPAState.reconcile, hdw]

theorem combine_none (m ds dp : ℤ) : KPAState.combine none m ds dp = (ds, m) := rfl

theorem combine_some (t : ℚ) (m ds dp : ℤ) :
    KPAState.combine (some t) m ds dp
      = (max m (max ds dp), max m (max ds dp)) := by
  simp only [KPAState.combine]
  rcases le_or_lt (max ds dp) m with h | h
  · rw [if_neg (not_lt.mpr h), max_eq_left h]
  · rw [if_pos h, max_eq_right h.le]

theorem panicTransition_over (k : KPAState) (now : ℚ) (d c : ℤ)
    (hov : k.panicThreshold ≤ (d : ℚ) / (c : ℚ)) :
    k.panicTransition now d c = (some now, k.maxPanicPods) := by
  unfold KPAState.panicTransition
  exact if_pos hov

theorem panicTransition_quiet_none (k : KPAState) (now : ℚ) (d c : ℤ)
    (hov : ¬ k.panicThreshold ≤ (d : ℚ) / (c : ℚ)) (hp : k.panicTime = none) :
    k.panicTransition now d c = (none, k.maxPanicPods) := by
  unfold KPAState.panicTransition
  rw [if_neg hov, hp]

theorem panicTransition_exit (k : KPAState) (now : ℚ) (d c : ℤ) (t : ℚ)
    (hov : ¬ k.panicThreshold ≤ (d : ℚ) / (c : ℚ)) (hp : k.panicTime = some t)
    (hex : t + k.stableWindow < now) :
    k.panicTransition now d c = (none, 0) := by
  unfold KPAState.panicTransition
  rw [if_neg hov, hp]
  show (if t + k.stableWindow < now then (none, (0 : ℤ))
        else (some t, k.maxPanicPods)) = (none, 0)
  exact if_pos hex

theorem panicTransition_stay (k : KPAState) (now : ℚ) (d c : ℤ) (t : ℚ)
    (hov : ¬ k.panicThreshold ≤ (d : ℚ) / (c : ℚ)) (hp : k.panicTime = some t)
    (hex : ¬ t + k.stableWindow < now) :
    k.panicTransition now d c = (some t, k.maxPanicPods) := by
  unfold KPAState.panicTransition
  rw [if_neg hov, hp]
  show (if t + k.stableWindow < now then (none, (0 : ℤ))
        else (some t, k.maxPanicPods)) = (some t, k.maxPanicPods)
  exact if_neg hex

/-- When the transition leaves the decider in panic, `maxPanicPods` is
carried over unchanged (the exit branch is the only one that resets it). -/
theorem pt_keeps_maxPanicPods (k : KPAState) (now : ℚ) (cr0 : ℕ) (p : ℚ)
    (h : (pt k now cr0 p).1 ≠ none) : (pt k now cr0 p).2 = k.maxPanicPods := by
  unfold pt
  by_cases hov : k.panicThreshold
      ≤ ((rawDesire k p : ℤ) : ℚ) / ((max 1 (cr0 : ℤ) : ℤ) : ℚ)
  · rw [panicTransition_over k now _ _ hov]
  · rcases hp : k.panicTime with _ | t
    · rw [panicTransition_quiet_none k now _ _ hov hp]
    · by_cases hex : t + k.stableWindow < now
      · exfalso
        apply h
        unfold pt
        rw [panicTransition_exit k now _ _ t hov hp hex]
      · rw [panicTransition_stay k now _ _ t hov hp hex]

/-- The bounds when not scaling from zero. -/
theorem bounds_of_pos (k : KPAState) (cr0 : ℕ) (i : ℚ) (hcr : 0 < cr0) :
    k.bounds cr0 i
      = (⌈k.maxScaleUpRate * (cr0 : ℚ)⌉, ⌊(cr0 : ℚ) / k.maxScaleDownRate⌋) := by
  have hmax : max 1 ((cr0 : ℕ) : ℤ) = (cr0 : ℤ) := max_eq_right (by omega)
  have hne : ¬(cr0 = 0 ∧ 0 < i) := by
    rintro ⟨h0, -⟩
    omega
  simp only [KPAState.bounds, hmax, if_neg hne, Int.cast_natCast]

/-- Concrete KPA configuration used in examples: `targetValue = 1`,
`maxScaleUpRate = 10`, `maxScaleDownRate = 2`, `stableWindow = 60`,
`panicThreshold = 2`, no delay window, fresh decision state. -/
def kpaExampleA : KPAState :=
  { targetValue := 1, maxScaleUpRate := 10, maxScaleDownRate := 2,
    stableWindow := 60, panicWindow := 6, panicThreshold := 2,
    delayWindow := none, tickInterval := 1,
    panicTime := none, maxPanicPods := 0, desiredScale := 0 }

theorem kpaExampleA_step1 :
    kpaExampleA.reconcile 0 10 100 100 0
      = ({ kpaExampleA with
            panicTime := some 0
            maxPanicPods := 100
            desiredScale := 100 }, 100) := by
  simp only [KPAState.reconcile, KPAState.bounds, KPAState.panicTransition,
    KPAState.combine, kpaExampleA]
  norm_num

/-- C3 (amended): when `panicStart` is set, the panic threshold is not
reached (`dpp / effectiveReady < panicThreshold`), and `now` is strictly
later than `panicStart + stableWindow`, `Reconcile` exits panic mode:
`panicStart` is unset and `maxPanicPods` is reset to 0. (The code uses
`panicTime.Add(stableWindow).Before(now)`, a strict comparison, so the exit
does not yet happen at `now = panicStart + stableWindow` exactly.) -/
theorem reconcile_panic_exit (k : KPAState) (now : ℚ) (cr0 : ℕ) (s p i : ℚ) (t : ℚ)
    (hpt : k.panicTime = some t)
    (hov : ((rawDesire k p : ℤ) : ℚ) / ((max 1 (cr0 : ℤ) : ℤ) : ℚ) < k.panicThreshold)
    (hexp : t + k.stableWindow < now) :
    ((k.reconcile now cr0 s p i).1).panicTime = none ∧
      ((k.reconcile now cr0 s p i).1).maxPanicPods = 0 := by
  have hptx : pt k now cr0 p = (none, 0) := by
    unfold pt
    exact panicTransition_exit k now _ _ t (not_le.mpr hov) hpt hexp
  constructor
  · rw [reconcile_panicTime_proj, hptx]
  · rw [reconcile_maxPanicPods_proj, hptx, combine_none]

/-- Witness for C3 (amended) at concrete inputs: a decider with
`panicStart = 0`, `stableWindow = 60`, quiet observations, reconciled at
`now = 61` exits panic. -/
theorem reconcile_panic_exit_witness :
    ((({ kpaExampleA with panicTime := some 0 } : KPAState).reconcile
        61 1 0 0 0).1).panicTime = none ∧
      ((({ kpaExampleA with panicTime := some 0 } : KPAState).reconcile
          61 1 0 0 0).1).maxPanicPods = 0 :=
  reconcile_panic_exit _ 61 1 0 0 0 0 rfl
    (by norm_num [rawDesire, kpaExampleA]) (by norm_num [kpaExampleA])

/-- Concrete KPA state used in the C3 counterexample: the example
configuration, already in panic since time 0 with `maxPanicPods = 5`. -/
def kpaExampleC : KPAState :=
  { kpaExampleA with panicTime := some 0, maxPanicPods := 5 }

/-- C3 counterexample: at `now = panicStart + stableWindow` exactly
(`panicStart = 0`, `stableWindow = 60`, `now = 60`), with the panic
threshold not exceeded (`dpp / effectiveReady = 0 < 2`), the code does NOT
exit panic mode: `panicTime` stays set and `maxPanicPods` stays 5, contrary
to the claim that the exit happens already at `now = panicStart +
stableWindow`. -/
theorem reconcile_panic_exit_cex :
    (0 : ℚ) + kpaExampleC.stableWindow = 60 ∧
      ((kpaExampleC.reconcile 60 1 0 0 0).1).panicTime = some 0 ∧
      ((kpaExampleC.reconcile 60 1 0 0 0).1).maxPanicPods = 5 := by
  refine ⟨by norm_num [kpaExampleC, kpaExampleA], ?_, ?_⟩ <;>
    simp only [KPAState.reconcile, KPAState.bounds, KPAState.panicTransition,
      KPAState.combine, kpaExampleC, kpaExampleA] <;>
    norm_num

/-- C1 (amended): for every `Reconcile` with `currentReady > 0`, on a
decider with `maxScaleUpRate ≥ 1`, `maxScaleDownRate ≥ 1` and no delay
window, and which is NOT in panic mode at the end of the call, the returned
desired count satisfies `⌊currentReady / maxScaleDownRate⌋ ≤ desired ≤
⌈maxScaleUpRate × currentReady⌉`. (Panic-mode carryover of `maxPanicPods`
and the delay window can both return values outside these bounds, so the
claim's "regardless of the decider's prior state" does not hold.) -/
theorem reconcile_rate_bounds (k : KPAState) (now : ℚ) (cr0 : ℕ) (s p i : ℚ)
    (hcr : 0 < cr0) (hup : 1 ≤ k.maxScaleUpRate) (hdown : 1 ≤ k.maxScaleDownRate)
    (hdw : k.delayWindow = none)
    (hpost : ((k.reconcile now cr0 s p i).1).panicTime = none) :
    ⌊(cr0 : ℚ) / k.maxScaleDownRate⌋ ≤ (k.reconcile now cr0 s p i).2 ∧
      (k.reconcile now cr0 s p i).2 ≤ ⌈k.maxScaleUpRate * (cr0 : ℚ)⌉ := by
  have hpt : (pt k now cr0 p).1 = none := by
    rw [← reconcile_panicTime_proj k now cr0 s p i]
    exact hpost
  have hres : (k.reconcile now cr0 s p i).2 = clamped k cr0 i s := by
    rw [reconcile_result_of_no_delay k now cr0 s p i hdw, hpt, combine_none]
  rw [hres]
  unfold clamped
  rw [bounds_of_pos k cr0 i hcr]
  have hdpos : 0 < k.maxScaleDownRate := lt_of_lt_of_le one_pos hdown
  have h1 : ⌊(cr0 : ℚ) / k.maxScaleDownRate⌋ ≤ (cr0 : ℤ) := by
    have hle : (cr0 : ℚ) / k.maxScaleDownRate ≤ (cr0 : ℚ) :=
      div_le_self (by positivity) hdown
    calc ⌊(cr0 : ℚ) / k.maxScaleDownRate⌋ ≤ ⌊((cr0 : ℕ) : ℚ)⌋ := Int.floor_le_floor hle
      _ = (cr0 : ℤ) := Int.floor_natCast cr0
  have h2 : (cr0 : ℤ) ≤ ⌈k.maxScaleUpRate * (cr0 : ℚ)⌉ := by
    have hle : ((cr0 : ℕ) : ℚ) ≤ k.maxScaleUpRate * (cr0 : ℚ) :=
      le_mul_of_one_le_left (by positivity) hup
    calc (cr0 : ℤ) = ⌈((cr0 : ℕ) : ℚ)⌉ := (Int.ceil_natCast cr0).symm
      _ ≤ ⌈k.maxScaleUpRate * (cr0 : ℚ)⌉ := Int.ceil_le_ceil hle
  exact ⟨le_min (le_max_right _ _) (h1.trans h2), min_le_right _ _⟩

/-- Witness for C1 (amended) at concrete inputs: the example decider, quiet
panic observations, `currentReady = 2`, stable average 3. -/
theorem reconcile_rate_bounds_witness :
    ⌊((2 : ℕ) : ℚ) / kpaExampleA.maxScaleDownRate⌋
        ≤ (kpaExampleA.reconcile 0 2 3 0 0).2 ∧
      (kpaExampleA.reconcile 0 2 3 0 0).2
        ≤ ⌈kpaExampleA.maxScaleUpRate * ((2 : ℕ) : ℚ)⌉ :=
  reconcile_rate_bounds kpaExampleA 0 2 3 0 0 (by norm_num)
    (by norm_num [kpaExampleA]) (by norm_num [kpaExampleA]) rfl
    (by simp only [KPAState.reconcile, KPAState.bounds, KPAState.panicTransition,
          KPAState.combine, kpaExampleA]
        norm_num)

/-- C1 counterexample: with the example configuration
(`maxScaleUpRate = 10`, `maxScaleDownRate = 2`, `panicThreshold = 2`, no
delay window), a first `Reconcile` at `now = 0` with `currentReady = 10` and
stable = panic = 100 enters panic with `maxPanicPods = 100`; a second
`Reconcile` at `now = 1` with `currentReady = 1 > 0` and all observations
zero returns 100, strictly above the claimed upper bound
`⌈maxScaleUpRate × currentReady⌉ = 10`. -/
theorem reconcile_rate_bounds_cex :
    ⌈kpaExampleA.maxScaleUpRate * ((1 : ℕ) : ℚ)⌉
      < ((kpaExampleA.reconcile 0 10 100 100 0).1.reconcile 1 1 0 0 0).2 := by
  rw [kpaExampleA_step1]
  simp only [KPAState.reconcile, KPAState.bounds, KPAState.panicTransition,
    KPAState.combine, kpaExampleA]
  norm_num

/-- C2 (amended): on a decider with no delay window, the desired replica
counts returned by two successive `Reconcile` calls are non-decreasing
whenever both calls end with `panicStart` set (so, by induction, the whole
returned sequence is non-decreasing while the decider stays in panic mode).
With a delay window, a stale pre-panic maximum expiring from the window can
make the returned sequence decrease while panicking. -/
theorem reconcile_panic_monotone (k : KPAState) (hdw : k.delayWindow = none)
    (now1 now2 : ℚ) (cr1 cr2 : ℕ) (s1 p1 i1 s2 p2 i2 : ℚ)
    (h1 : ((k.reconcile now1 cr1 s1 p1 i1).1).panicTime ≠ none)
    (h2 : ((((k.reconcile now1 cr1 s1 p1 i1).1).reconcile now2 cr2 s2 p2 i2).1).panicTime
            ≠ none) :
    (k.reconcile now1 cr1 s1 p1 i1).2
      ≤ (((k.reconcile now1 cr1 s1 p1 i1).1).reconcile now2 cr2 s2 p2 i2).2 := by
  have hdw1 : ((k.reconcile now1 cr1 s1 p1 i1).1).delayWindow = none :=
    reconcile_delayWindow_of_none k now1 cr1 s1 p1 i1 hdw
  have hpt1 : (pt k now1 cr1 p1).1 ≠ none := by
    rw [← reconcile_panicTime_proj k now1 cr1 s1 p1 i1]
    exact h1
  have hpt2 : (pt ((k.reconcile now1 cr1 s1 p1 i1).1) now2 cr2 p2).1 ≠ none := by
    rw [← reconcile_panicTime_proj ((k.reconcile now1 cr1 s1 p1 i1).1) now2 cr2 s2 p2 i2]
    exact h2
  obtain ⟨t1, ht1⟩ := Option.ne_none_iff_exists'.mp hpt1
  obtain ⟨t2, ht2⟩ := Option.ne_none_iff_exists'.mp hpt2
  have hr1 : (k.reconcile now1 cr1 s1 p1 i1).2
      = ((k.reconcile now1 cr1 s1 p1 i1).1).maxPanicPods := by
    rw [reconcile_result_of_no_delay k now1 cr1 s1 p1 i1 hdw,
      reconcile_maxPanicPods_proj k now1 cr1 s1 p1 i1, ht1, combine_some]
  have hr2 : (((k.reconcile now1 cr1 s1 p1 i1).1).reconcile now2 cr2 s2 p2 i2).2
      = ((((k.reconcile now1 cr1 s1 p1 i1).1).reconcile now2 cr2 s2 p2 i2).1).maxPanicPods := by
    rw [reconcile_result_of_no_delay ((k.reconcile now1 cr1 s1 p1 i1).1) now2 cr2 s2 p2 i2 hdw1,
      reconcile_maxPanicPods_proj ((k.reconcile now1 cr1 s1 p1 i1).1) now2 cr2 s2 p2 i2,
      ht2, combine_some]
  have hmono : ((k.reconcile now1 cr1 s1 p1 i1).1).maxPanicPods
      ≤ ((((k.reconcile now1 cr1 s1 p1 i1).1).reconcile now2 cr2 s2 p2 i2).1).maxPanicPods := by
    rw [reconcile_maxPanicPods_proj ((k.reconcile now1 cr1 s1 p1 i1).1) now2 cr2 s2 p2 i2,
      ht2, combine_some]
    have hkeep := pt_keeps_maxPanicPods ((k.reconcile now1 cr1 s1 p1 i1).1) now2 cr2 p2 hpt2
    rw [hkeep]
    exact le_max_left _ _
  rw [hr1, hr2]
  exact hmono

/-- Witness for C2 (amended) at concrete inputs: the example decider enters
panic on the first call (returning 100) and stays in panic on a quiet second
call (still returning 100). -/
theorem reconcile_panic_monotone_witness :
    (kpaExampleA.reconcile 0 10 100 100 0).2
      ≤ (((kpaExampleA.reconcile 0 10 100 100 0).1).reconcile 1 1 0 0 0).2 :=
  reconcile_panic_monotone kpaExampleA rfl 0 1 10 1 100 100 0 0 0 0
    (by rw [kpaExampleA_step1]; exact Option.some_ne_none 0)
    (by rw [kpaExampleA_step1]
        simp only [KPAState.reconcile, KPAState.bounds, KPAState.panicTransition,
          KPAState.combine, kpaExampleA]
        norm_num
        exact Option.some_ne_none 0)

/-- Concrete KPA configuration used in the C2 counterexample:
`targetValue = 1`, `maxScaleUpRate = 100`, `maxScaleDownRate = 2`,
`stableWindow = 60`, `panicThreshold = 2`, and a scale-down delay window of
2 slots at granularity 1 (scaleDownDelay = 2s, tickInterval = 1s), fresh
decision state. -/
def kpaExampleB : KPAState :=
  { targetValue := 1, maxScaleUpRate := 100, maxScaleDownRate := 2,
    stableWindow := 60, panicWindow := 6, panicThreshold := 2,
    delayWindow := some { nSlots := 2, granularity := 1, entries := [] },
    tickInterval := 1,
    panicTime := none, maxPanicPods := 0, desiredScale := 0 }

theorem kpaExampleB_step1 :
    kpaExampleB.reconcile 0 4 100 1 0
      = ({ kpaExampleB with
            delayWindow := some { nSlots := 2, granularity := 1, entries := [(0, 100)] }
            desiredScale := 100 }, 100) := by
  simp only [KPAState.reconcile, KPAState.bounds, KPAState.panicTransition,
    KPAState.combine, TimeWindow.record, TimeWindow.current, kpaExampleB]
  norm_num

theorem kpaExampleB_step2 :
    ({ kpaExampleB with
        delayWindow := some { nSlots := 2, granularity := 1, entries := [(0, 100)] }
        desiredScale := 100 } : KPAState).reconcile 1 1 0 3 0
      = ({ kpaExampleB with
            delayWindow := some
              { nSlots := 2, granularity := 1, entries := [(1, 3), (0, 100)] }
            panicTime := some 1
            maxPanicPods := 3
            desiredScale := 100 }, 100) := by
  simp only [KPAState.reconcile, KPAState.bounds, KPAState.panicTransition,
    KPAState.combine, TimeWindow.record, TimeWindow.current, kpaExampleB]
  norm_num

theorem kpaExampleB_step3 :
    ({ kpaExampleB with
        delayWindow := some
          { nSlots := 2, granularity := 1, entries := [(1, 3), (0, 100)] }
        panicTime := some 1
        maxPanicPods := 3
        desiredScale := 100 } : KPAState).reconcile 2 1 0 0 0
      = ({ kpaExampleB with
            delayWindow := some
              { nSlots := 2, granularity := 1, entries := [(2, 3), (1, 3), (0, 100)] }
            panicTime := some 1
            maxPanicPods := 3
            desiredScale := 3 }, 3) := by
  simp only [KPAState.reconcile, KPAState.bounds, KPAState.panicTransition,
    KPAState.combine, TimeWindow.record, TimeWindow.current, kpaExampleB]
  norm_num

/-- C2 counterexample: with a 2-slot delay window, a stable-mode call at
time 0 records 100; the decider enters panic at time 1 (returning the
delayed 100) and is still in panic at time 2, yet returns 3 < 100 because
the stale 100 has dropped out of the delay window — the returned sequence
decreases while `panicStart` stays set. -/
theorem reconcile_panic_monotone_cex :
    ((((kpaExampleB.reconcile 0 4 100 1 0).1).reconcile 1 1 0 3 0).1).panicTime = some 1 ∧
      (((((kpaExampleB.reconcile 0 4 100 1 0).1).reconcile 1 1 0 3 0).1).reconcile
          2 1 0 0 0).1.panicTime = some 1 ∧
      (((((kpaExampleB.reconcile 0 4 100 1 0).1).reconcile 1 1 0 3 0).1).reconcile
          2 1 0 0 0).2
        < (((kpaExampleB.reconcile 0 4 100 1 0).1).reconcile 1 1 0 3 0).2 := by
  rw [kpaExampleB_step1]
  rw [kpaExampleB_step2]
  rw [kpaExampleB_step3]
  norm_num

/-- C6 (amended): when `Reconcile` is called with `currentReady = 0`,
instant concurrency > 0, and stable and panic window averages both 0, on a
decider not in panic mode with `maxPanicPods = 0` and no delay window (a
fresh decision state, as in the spec's S4 scenario) with `targetValue > 0`
and `maxScaleDownRate > 1`, both clamp bounds are raised to at least 1 and
the call returns `desired = 1` (scale-from-zero kick). On a panicking
decider the same inputs return `maxPanicPods` instead. -/
theorem reconcile_scale_from_zero (k : KPAState) (now i : ℚ)
    (hpt : k.panicTime = none) (hmpp : k.maxPanicPods = 0)
    (hdw : k.delayWindow = none) (htv : 0 < k.targetValue)
    (hdown : 1 < k.maxScaleDownRate) (hi : 0 < i) :
    1 ≤ (k.bounds 0 i).1 ∧ 1 ≤ (k.bounds 0 i).2 ∧
      (k.reconcile now 0 0 0 i).2 = 1 := by
  have hbounds : k.bounds 0 i
      = (max ⌈k.maxScaleUpRate * ((1 : ℤ) : ℚ)⌉ 1,
         max ⌊((1 : ℤ) : ℚ) / k.maxScaleDownRate⌋ 1) := by
    unfold KPAState.bounds
    norm_num [hi]
  have hdpos : (0 : ℚ) < k.maxScaleDownRate := lt_trans one_pos hdown
  have hlow : ⌊((1 : ℤ) : ℚ) / k.maxScaleDownRate⌋ = 0 := by
    rw [Int.floor_eq_iff]
    constructor
    · positivity
    · push_cast
      have h1 : (1 : ℚ) / k.maxScaleDownRate < 1 := (div_lt_one hdpos).mpr hdown
      linarith
  have hlb : (k.bounds 0 i).2 = 1 := by
    rw [hbounds, hlow]
    exact max_eq_right (by norm_num)
  have hub1 : 1 ≤ (k.bounds 0 i).1 := by
    rw [hbounds]
    exact le_max_right _ _
  have hraw : rawDesire k 0 = 0 := by
    unfold rawDesire
    rw [zero_div, Int.ceil_zero]
  have hclamp : ∀ v : ℚ, v = 0 → clamped k 0 i v = 1 := by
    intro v hv
    unfold clamped
    rw [hv, hraw, hlb]
    rw [max_eq_right (by norm_num : (0 : ℤ) ≤ 1)]
    exact min_eq_left hub1
  have hc0 : clamped k 0 i 0 = 1 := hclamp 0 rfl
  refine ⟨hub1, by rw [hlb], ?_⟩
  rw [reconcile_result_of_no_delay k now 0 0 0 i hdw]
  by_cases hov : k.panicThreshold
      ≤ ((rawDesire k 0 : ℤ) : ℚ) / ((max 1 ((0 : ℕ) : ℤ) : ℤ) : ℚ)
  · have hptx : pt k now 0 0 = (some now, 0) := by
      unfold pt
      rw [panicTransition_over k now _ _ hov, hmpp]
    rw [hptx, combine_some, hc0]
    norm_num
  · have hptx : pt k now 0 0 = (none, k.maxPanicPods) := by
      unfold pt
      exact panicTransition_quiet_none k now _ _ hov hpt
    rw [hptx, combine_none, hc0]

/-- Witness for C6 at the spec's S4 scenario inputs: the example decider,
`currentReady = 0`, instant = 1/2, stable = panic = 0 yields desired 1. -/
theorem reconcile_scale_from_zero_witness :
    1 ≤ (kpaExampleA.bounds 0 (1 / 2)).1 ∧ 1 ≤ (kpaExampleA.bounds 0 (1 / 2)).2 ∧
      (kpaExampleA.reconcile 0 0 0 0 (1 / 2)).2 = 1 :=
  reconcile_scale_from_zero kpaExampleA 0 (1 / 2) rfl rfl rfl
    (by norm_num [kpaExampleA]) (by norm_num [kpaExampleA]) (by norm_num)

/-- C6 counterexample: the scale-from-zero kick does not hold regardless of
prior decider state. On the example decider after it has entered panic with
`maxPanicPods = 100` (the reachable post-state of a `Reconcile` at
`currentReady = 10` with stable = panic = 100), a C6-shaped call —
`currentReady = 0`, instant = 1/2 > 0, stable and panic averages 0 —
returns `maxPanicPods = 100`, not 1: the panic combine step ignores the
clamped desired count of 1. -/
theorem reconcile_scale_from_zero_cex :
    ((kpaExampleA.reconcile 0 10 100 100 0).1.reconcile 1 0 0 0 (1 / 2)).2 = 100 ∧
      ((kpaExampleA.reconcile 0 10 100 100 0).1.reconcile 1 0 0 0 (1 / 2)).2 ≠ 1 := by
  have h : ((kpaExampleA.reconcile 0 10 100 100 0).1.reconcile 1 0 0 0 (1 / 2)).2 = 100 := by
    rw [kpaExampleA_step1]
    simp only [KPAState.reconcile, KPAState.bounds, KPAState.panicTransition,
      KPAState.combine, kpaExampleA]
    norm_num
  exact ⟨h, by rw [h]; norm_num⟩

/-! ### Workload data model (src/pkg/workload/types.go) -/

/-- Model of `workload.ResponseStatus`. -/
inductive ResponseStatus where
  | SUCCESS
  | FAIL_OVERFLOW
  | FAIL_TIMEOUT
  | FAIL_CONNECT
  | FAIL_SEND
  | FAIL_RECV
  | FAIL_UNMARSHALL
  | INVALID_TARGET
deriving Repr, DecidableEq

/-- Model of `workload.Request`. Timestamps are rational seconds with the Go
zero time modelled as `none`. -/
structure Request where
  ID : String
  Target : String
  DurationMilliSec : ℤ
  ClientSendTS : Option ℚ
  GatewayRecvTS : Option ℚ
  GatewaySendTS : Option ℚ
  ClientRelTime : ℚ
  TraceRelTime : ℚ
deriving Repr, DecidableEq

/-- Model of `workload.Response`. The Go struct holds a pointer to its
request; here the request value is embedded. -/
structure Response where
  Source : Request
  Status : ResponseStatus
  GatewayRecvTS : Option ℚ
  ClientRecvTS : Option ℚ
  RuntimeMicroSec : ℤ
deriving Repr, DecidableEq

/-- A response whose only populated fields are `Source` and `Status`, as
produced by `&workload.Response{Source: req, Status: ...}` in Go (remaining
fields take their zero values). -/
def Response.bare (req : Request) (st : ResponseStatus) : Response :=
  { Source := req, Status := st, GatewayRecvTS := none, ClientRecvTS := none,
    RuntimeMicroSec := 0 }

/-! ### DeploymentScaler (src/pkg/autoscaler/scaler/deployment.go) -/

/-- Model of the parts of a `Deployment` object read by the scaler:
`Spec.Replicas` (a nullable int32) and whether `DeletionTimestamp` is set. -/
structure Deployment where
  replicas : Option ℤ
  deleting : Bool
deriving Repr, DecidableEq

/-- Error classes that `DeploymentScaler.Scale` can return. -/
inductive ScaleErr where
  | getFailed
  | beingDeleted
  | updateFailed
deriving Repr, DecidableEq

/-- Model of `DeploymentScaler.Scale` for one key: `Get` the deployment (a
missing deployment models a failed get), error out if it is being deleted,
return success with no update when `Spec.Replicas` already equals `desired`,
otherwise issue the scale update (whose success is an input, modelling the
cluster call). Returns the resulting cluster state and the error, if any. -/
def DeploymentScaler.scale (dep : Option Deployment) (desired : ℤ)
    (updateOk : Bool) : Option Deployment × Option ScaleErr :=
  match dep with
  | none => (none, some .getFailed)
  | some d =>
      if d.deleting then (some d, some .beingDeleted)
      else if d.replicas = some desired then (some d, none)
      else if updateOk then (some { d with replicas := some desired }, none)
      else (some d, some .updateFailed)

/-- C7 counterexample: a deployment whose replica count already equals the
desired value but which is being deleted (`DeletionTimestamp` set) makes
`Scale` return the being-deleted error rather than success — the deletion
check precedes the idempotence check. -/
theorem scale_idempotent_cex :
    (DeploymentScaler.scale (some { replicas := some 3, deleting := true }) 3 true).2
      = some ScaleErr.beingDeleted := rfl

/-- C7 (amended): `Scale` is idempotent for a live deployment: if the
deployment exists, is not being deleted, and its current replica count
already equals `desired`, the call performs no update and returns success. -/
theorem scale_idempotent (d : Deployment) (desired : ℤ) (updateOk : Bool)
    (hdel : d.deleting = false) (hrep : d.replicas = some desired) :
    DeploymentScaler.scale (some d) desired updateOk = (some d, none) := by
  simp [DeploymentScaler.scale, hdel, hrep]

/-- Witness for C7 (amended) at a concrete deployment with 3 replicas. -/
theorem scale_idempotent_witness :
    DeploymentScaler.scale (some { replicas := some 3, deleting := false }) 3 true
      = (some { replicas := some 3, deleting := false }, none) :=
  scale_idempotent { replicas := some 3, deleting := false } 3 true rfl rfl

/-! ### PodDispatcher (src/pkg/gateway/dispatcher/pod.go) -/

/-- Model of `PodDispatcher.dispatch`: pop tokens (endpoint identities) from
the FIFO in order; a token whose identity has no executor in `endpoints` is
silently discarded and the loop continues; the first live token is returned
with its executor and the remaining FIFO contents. `none` models the
dispatch-timeout outcome: the deadline fires once no live token is or
becomes available (executors are modelled as response functions). -/
def dispatchLoop (endpoints : List (String × (Request → Response))) :
    List String → Option (String × (Request → Response) × List String)
  | [] => none
  | key :: rest =>
      match endpoints.find? fun q => q.1 == key with
      | none => dispatchLoop endpoints rest
      | some q => some (key, q.2, rest)

/-- Model of `PodDispatcher.Dispatch` for one request: on timeout, emit
exactly one `FAIL_TIMEOUT` response; otherwise call the executor, push the
token back onto the FIFO, and forward the executor's response. Returns the
emitted responses and the FIFO contents afterwards. -/
def dispatchOne (endpoints : List (String × (Request → Response)))
    (tokens : List String) (req : Request) : List Response × List String :=
  match dispatchLoop endpoints tokens with
  | none => ([Response.bare req .FAIL_TIMEOUT], [])
  | some (key, ex, rest) => ([ex req], rest ++ [key])

theorem dispatchLoop_all_dead (endpoints : List (String × (Request → Response)))
    (tokens : List String)
    (hdead : ∀ t ∈ tokens, (endpoints.find? fun q => q.1 == t) = none) :
    dispatchLoop endpoints tokens = none := by
  induction tokens with
  | nil => rfl
  | cons t rest ih =>
      unfold dispatchLoop
      rw [hdead t (List.mem_cons_self t rest)]
      exact ih fun x hx => hdead x (List.mem_cons_of_mem t hx)

theorem dispatchLoop_first_live (endpoints : List (String × (Request → Response)))
    (dead : List String) (key : String) (rest : List String)
    (qv : String × (Request → Response))
    (hdead : ∀ t ∈ dead, (endpoints.find? fun q => q.1 == t) = none)
    (hlive : (endpoints.find? fun q => q.1 == key) = some qv) :
    dispatchLoop endpoints (dead ++ key :: rest) = some (key, qv.2, rest) := by
  induction dead with
  | nil =>
      rw [List.nil_append]
      unfold dispatchLoop
      rw [hlive]
  | cons d ds ih =>
      rw [List.cons_append]
      unfold dispatchLoop
      rw [hdead d (List.mem_cons_self d ds)]
      exact ih fun x hx => hdead x (List.mem_cons_of_mem d hx)

/-- C8: `Dispatch` pops tokens from the FIFO, silently discarding (not
re-queuing) tokens whose endpoint was removed; if no live token is obtained
before the dispatch timeout, exactly one `FAIL_TIMEOUT` response is emitted
for the request; otherwise the first live token's executor produces the
response, the token is pushed back onto the FIFO, and that response is the
only one emitted. -/
theorem dispatch_spec (endpoints : List (String × (Request → Response)))
    (tokens : List String) (req : Request) :
    ((∀ t ∈ tokens, (endpoints.find? fun q => q.1 == t) = none) →
        dispatchOne endpoints tokens req
          = ([Response.bare req .FAIL_TIMEOUT], [])) ∧
      (∀ dead key rest qv, tokens = dead ++ key :: rest →
        (∀ t ∈ dead, (endpoints.find? fun q => q.1 == t) = none) →
        (endpoints.find? fun q => q.1 == key) = some qv →
        dispatchOne endpoints tokens req = ([qv.2 req], rest ++ [key])) := by
  constructor
  · intro hdead
    unfold dispatchOne
    rw [dispatchLoop_all_dead endpoints tokens hdead]
  · intro dead key rest qv htok hdead hlive
    subst htok
    unfold dispatchOne
    rw [dispatchLoop_first_live endpoints dead key rest qv hdead hlive]

/-- Concrete executor used in dispatcher examples. -/
def executorExample : Request → Response := fun r => Response.bare r .SUCCESS

/-- Concrete endpoint map used in dispatcher examples: only identity `"b"`
is live. -/
def endpointsExample : List (String × (Request → Response)) :=
  [("b", executorExample)]

/-- Concrete request used in dispatcher and gateway examples. -/
def reqExample : Request :=
  { ID := "r1", Target := "svc", DurationMilliSec := 10, ClientSendTS := some 0,
    GatewayRecvTS := none, GatewaySendTS := none, ClientRelTime := 0,
    TraceRelTime := 0 }

/-- Witness for C8 at concrete inputs: a dead token `"a"` is discarded and
the live token `"b"` serves the request and is re-queued; with an empty
FIFO the request times out with exactly one `FAIL_TIMEOUT` response. -/
theorem dispatch_spec_witness :
    dispatchOne endpointsExample ["a", "b"] reqExample
        = ([executorExample reqExample], ["b"]) ∧
      dispatchOne endpointsExample [] reqExample
        = ([Response.bare reqExample .FAIL_TIMEOUT], []) :=
  ⟨(dispatch_spec endpointsExample ["a", "b"] reqExample).2 ["a"] "b" []
      ("b", executorExample) rfl
      (by intro t ht
          simp only [List.mem_singleton] at ht
          subst ht
          rfl)
      rfl,
   (dispatch_spec endpointsExample [] reqExample).1 (by intro t ht; cases ht)⟩

/-! ### Gateway relay (src/pkg/gateway/interface.go) -/

/-- Effects of one iteration of `gatewayImpl.relay` on a request dequeued
from the external input for `key`: whether the autoscaler `ReqIn` hook was
invoked, what was forwarded to the internal input buffer, and what was sent
to the shared external output. -/
structure RelayEffect where
  reqInCalled : Bool
  toInternalInput : Option Request
  toExternalOutput : Option Response
deriving Repr, DecidableEq

/-- Model of the external-input branch of `gatewayImpl.relay` (lines 92–109
of interface.go): a mis-addressed request (`req.Target ≠ key`) produces a
bare `INVALID_TARGET` response directly on the external output and nothing
else; otherwise the `ReqIn` hook runs, `GatewayRecvTS` is stamped with the
current time, and the stamped request goes to the internal input buffer. -/
def relayExternalInput (key : String) (req : Request) (now : ℚ) : RelayEffect :=
  if req.Target ≠ key then
    { reqInCalled := false, toInternalInput := none,
      toExternalOutput := some (Response.bare req .INVALID_TARGET) }
  else
    { reqInCalled := true,
      toInternalInput := some { req with GatewayRecvTS := some now },
      toExternalOutput := none }

/-- C9: a dequeued request with `Target ≠ key` yields a synthetic
`INVALID_TARGET` response referencing it on the external output, with
neither the `ReqIn` hook nor the internal input buffer invoked; a request
with `Target = key` invokes the `ReqIn` hook, gets `GatewayRecv` stamped,
and is forwarded to the internal input buffer with no `INVALID_TARGET`
response. -/
theorem relay_external_input_spec (key : String) (req : Request) (now : ℚ) :
    (req.Target ≠ key →
        relayExternalInput key req now
          = { reqInCalled := false, toInternalInput := none,
              toExternalOutput := some (Response.bare req .INVALID_TARGET) }) ∧
      (req.Target = key →
        relayExternalInput key req now
          = { reqInCalled := true,
              toInternalInput := some { req with GatewayRecvTS := some now },
              toExternalOutput := none }) := by
  constructor
  · intro h
    unfold relayExternalInput
    rw [if_pos h]
  · intro h
    unfold relayExternalInput
    rw [if_neg (by simp [h])]

/-- Witness for C9 at concrete inputs: `reqExample` targets `"svc"`, so it
is forwarded with a stamp for key `"svc"` and rejected as
`INVALID_TARGET` for key `"other"`. -/
theorem relay_external_input_spec_witness :
    relayExternalInput "other" reqExample 7
        = { reqInCalled := false, toInternalInput := none,
            toExternalOutput := some (Response.bare reqExample .INVALID_TARGET) } ∧
      relayExternalInput "svc" reqExample 7
        = { reqInCalled := true,
            toInternalInput := some { reqExample with GatewayRecvTS := some 7 },
            toExternalOutput := none } :=
  ⟨(relay_external_input_spec "other" reqExample 7).1 (by decide),
   (relay_external_input_spec "svc" reqExample 7).2 rfl⟩

end Kubedirect
